import Mathlib

/-!
Verification development for the breathing-session timer of the
cool-waves repository.

The core logic lives in src/src/App.tsx (first document): a breath-phase
and session countdown advanced by a 100 ms tick, settings normalization
in readSettings and applySettings, persistence through a flat stored
record, and a phase-to-scale lookup for the presentation layer.

All definitions below are translated from that source.  Milliseconds are
modelled as Int, phase indices as Nat kept below 4 by the modulo-4
arithmetic of the code.  JavaScript numbers reachable from JSON.parse
are modelled as rationals extended with the two infinities (JSON.parse
never yields NaN).
-/

namespace CoolWaves

/-! ## Timer state machine, App.tsx lines 15 to 41 and 206 to 229 -/

/-- Breathing durations in seconds, one per phase, as held in the
breathingDurations state.  The timer assumes pre-validated integer
second durations, modelled as Int. -/
structure BreathingDurations where
  inhale : Int
  hold : Int
  exhale : Int
  rest : Int
deriving DecidableEq, Repr

/-- Lookup of phases[i].duration for the phases array built at App.tsx
lines 44 to 52: index 0 is inhale, 1 is hold, 2 is exhale, 3 is rest.
The code only ever indexes with a value kept below 4 by modulo 4. -/
def phaseDurationSeconds (d : BreathingDurations) : Nat → Int
  | 0 => d.inhale
  | 1 => d.hold
  | 2 => d.exhale
  | _ => d.rest

/-- The mutable timer state of the App component: isRunning, phaseIndex,
phaseTimeLeftMs, sessionRemainingMs and showSessionComplete. -/
structure TimerState where
  isRunning : Bool
  phaseIndex : Nat
  phaseTimeLeftMs : Int
  sessionRemainingMs : Int
  showSessionComplete : Bool
deriving DecidableEq, Repr

/-- One invocation of the 100 ms timeout callback, App.tsx lines 206 to
229.  When isRunning is false no timeout is scheduled, so the state is
unchanged.  Otherwise: if sessionRemainingMs is at most 100 the session
completes (sessionRemainingMs set to 0, isRunning cleared,
showSessionComplete set) and nothing else happens; otherwise the phase
countdown advances (phase change when phaseTimeLeftMs is at most 100,
plain decrement otherwise) and sessionRemainingMs drops by 100, floored
at 0. -/
def tick (d : BreathingDurations) (s : TimerState) : TimerState :=
  if s.isRunning = false then s
  else if s.sessionRemainingMs ≤ 100 then
    { s with sessionRemainingMs := 0, isRunning := false, showSessionComplete := true }
  else
    let s' :=
      if s.phaseTimeLeftMs ≤ 100 then
        let nextIndex := (s.phaseIndex + 1) % 4
        { s with phaseIndex := nextIndex,
                 phaseTimeLeftMs := phaseDurationSeconds d nextIndex * 1000 }
      else
        { s with phaseTimeLeftMs := s.phaseTimeLeftMs - 100 }
    { s' with sessionRemainingMs := max 0 (s.sessionRemainingMs - 100) }

/-- The startSession handler, App.tsx lines 90 to 97: resets the whole
timer state for a fresh session of the given duration. -/
def startSession (d : BreathingDurations) (durationSeconds : Int) : TimerState :=
  { isRunning := true
    phaseIndex := 0
    phaseTimeLeftMs := phaseDurationSeconds d 0 * 1000
    sessionRemainingMs := durationSeconds * 1000
    showSessionComplete := false }

/-- The toggleSessionRunning handler, App.tsx lines 99 to 102: flips
isRunning unless sessionRemainingMs is already 0 or less. -/
def toggleSessionRunning (s : TimerState) : TimerState :=
  if s.sessionRemainingMs ≤ 0 then s
  else { s with isRunning := !s.isRunning }

/-- The effect of applySettings (App.tsx lines 109 to 125) on the timer
state: sessionRemainingMs is reset to the new session length and
showSessionComplete is cleared; isRunning is not touched.  The phases
effect at lines 201 to 204 then resets the phase fields. -/
def applySettingsTimer (d : BreathingDurations) (sessionSeconds : Int)
    (s : TimerState) : TimerState :=
  { s with sessionRemainingMs := sessionSeconds * 1000
           showSessionComplete := false
           phaseIndex := 0
           phaseTimeLeftMs := phaseDurationSeconds d 0 * 1000 }

/-- The initial timer state from the useState initializers, App.tsx
lines 18 to 29, with the default settings of data/breathing.ts: running,
phase 0 with 4000 ms left, 600000 ms of session. -/
def initialTimerState : TimerState :=
  { isRunning := true
    phaseIndex := 0
    phaseTimeLeftMs := 4000
    sessionRemainingMs := 600000
    showSessionComplete := false }

/-! ### Basic tick lemmas -/

theorem tick_not_running (d : BreathingDurations) (s : TimerState)
    (hr : s.isRunning = false) : tick d s = s := by
  simp [tick, hr]

theorem tick_complete_eq (d : BreathingDurations) (s : TimerState)
    (hr : s.isRunning = true) (hs : s.sessionRemainingMs ≤ 100) :
    tick d s = { s with sessionRemainingMs := 0, isRunning := false,
                        showSessionComplete := true } := by
  simp [tick, hr, hs]

theorem tick_decrement (d : BreathingDurations) (s : TimerState)
    (hr : s.isRunning = true) (hs : 100 < s.sessionRemainingMs)
    (hp : 100 < s.phaseTimeLeftMs) :
    tick d s = { s with phaseTimeLeftMs := s.phaseTimeLeftMs - 100,
                        sessionRemainingMs := s.sessionRemainingMs - 100 } := by
  cases s with
  | mk r i p m c =>
    simp only [tick] at *
    simp only [not_le.2 hs, not_le.2 hp, hr, if_neg, if_pos]
    simp_all
    omega

theorem tick_advance (d : BreathingDurations) (s : TimerState)
    (hr : s.isRunning = true) (hs : 100 < s.sessionRemainingMs)
    (hp : s.phaseTimeLeftMs ≤ 100) :
    tick d s = { s with
      phaseIndex := (s.phaseIndex + 1) % 4,
      phaseTimeLeftMs := phaseDurationSeconds d ((s.phaseIndex + 1) % 4) * 1000,
      sessionRemainingMs := s.sessionRemainingMs - 100 } := by
  cases s with
  | mk r i p m c =>
    simp only [tick] at *
    simp only [not_le.2 hs, hp, hr, if_neg, if_pos]
    simp_all
    omega

/-- A running tick that does not complete the session keeps isRunning,
preserves showSessionComplete and drops sessionRemainingMs by 100,
whatever the phase branch does. -/
theorem tick_step (d : BreathingDurations) (s : TimerState)
    (hr : s.isRunning = true) (hs : 100 < s.sessionRemainingMs) :
    (tick d s).isRunning = true ∧
    (tick d s).sessionRemainingMs = s.sessionRemainingMs - 100 ∧
    (tick d s).showSessionComplete = s.showSessionComplete := by
  by_cases hp : s.phaseTimeLeftMs ≤ 100
  · rw [tick_advance d s hr hs hp]
    exact ⟨hr, rfl, rfl⟩
  · rw [tick_decrement d s hr hs (not_le.1 hp)]
    exact ⟨hr, rfl, rfl⟩

/-- Iterating the tick n times from a running state holding exactly
100 * (n + 1) ms of session leaves a running state holding exactly
100 ms, with showSessionComplete untouched. -/
theorem tick_countdown (d : BreathingDurations) :
    ∀ (n : Nat) (s : TimerState), s.isRunning = true →
      s.sessionRemainingMs = 100 * ((n : Int) + 1) →
      ((tick d)^[n] s).isRunning = true ∧
      ((tick d)^[n] s).sessionRemainingMs = 100 ∧
      ((tick d)^[n] s).showSessionComplete = s.showSessionComplete := by
  intro n
  induction n with
  | zero =>
    intro s hr hs
    refine ⟨by simpa using hr, ?_, by simp⟩
    simp only [Function.iterate_zero, id_eq]
    rw [hs]; norm_num
  | succ k ih =>
    intro s hr hs
    have hs' : 100 < s.sessionRemainingMs := by
      rw [hs]; push_cast; omega
    obtain ⟨h1, h2, h3⟩ := tick_step d s hr hs'
    have h2' : (tick d s).sessionRemainingMs = 100 * ((k : Int) + 1) := by
      rw [h2, hs]; push_cast; ring
    rw [Function.iterate_succ_apply]
    obtain ⟨g1, g2, g3⟩ := ih (tick d s) h1 h2'
    exact ⟨g1, g2, g3.trans h3⟩

/-- C1: with session-remaining 1000 ms and the 100 ms tick, a running
not-complete state reaches, after exactly 10 ticks, a state with running
false, session-complete true and session-remaining 0, whatever the
breathing durations and phase fields are; and the completing tenth tick
performs no phase advance: the phase index and phase countdown are those
of the state after 9 ticks. -/
theorem session_completes_after_ten_ticks (d : BreathingDurations)
    (s : TimerState) (hr : s.isRunning = true)
    (_hc : s.showSessionComplete = false)
    (hs : s.sessionRemainingMs = 1000) :
    ((tick d)^[10] s).isRunning = false ∧
    ((tick d)^[10] s).showSessionComplete = true ∧
    ((tick d)^[10] s).sessionRemainingMs = 0 ∧
    ((tick d)^[10] s).phaseIndex = ((tick d)^[9] s).phaseIndex ∧
    ((tick d)^[10] s).phaseTimeLeftMs = ((tick d)^[9] s).phaseTimeLeftMs := by
  have h9 : s.sessionRemainingMs = 100 * ((9 : Int) + 1) := by rw [hs]; norm_num
  obtain ⟨r9, m9, c9⟩ := tick_countdown d 9 s hr h9
  have h10 : (tick d)^[10] s = tick d ((tick d)^[9] s) :=
    Function.iterate_succ_apply' (tick d) 9 s
  rw [h10, tick_complete_eq d ((tick d)^[9] s) r9 (le_of_eq m9)]
  exact ⟨rfl, rfl, rfl, rfl, rfl⟩

/-- Witness for C1 at the default pattern, starting mid-inhale. -/
theorem session_completes_after_ten_ticks_witness :
    ((tick ⟨4, 4, 4, 2⟩)^[10] ⟨true, 0, 4000, 1000, false⟩).isRunning = false ∧
    ((tick ⟨4, 4, 4, 2⟩)^[10] ⟨true, 0, 4000, 1000, false⟩).showSessionComplete = true ∧
    ((tick ⟨4, 4, 4, 2⟩)^[10] ⟨true, 0, 4000, 1000, false⟩).sessionRemainingMs = 0 ∧
    ((tick ⟨4, 4, 4, 2⟩)^[10] ⟨true, 0, 4000, 1000, false⟩).phaseIndex
      = ((tick ⟨4, 4, 4, 2⟩)^[9] ⟨true, 0, 4000, 1000, false⟩).phaseIndex ∧
    ((tick ⟨4, 4, 4, 2⟩)^[10] ⟨true, 0, 4000, 1000, false⟩).phaseTimeLeftMs
      = ((tick ⟨4, 4, 4, 2⟩)^[9] ⟨true, 0, 4000, 1000, false⟩).phaseTimeLeftMs :=
  session_completes_after_ten_ticks ⟨4, 4, 4, 2⟩ ⟨true, 0, 4000, 1000, false⟩
    rfl rfl rfl

/-! ### Running through one phase -/

/-- Ticks spent decrementing within one phase: from phaseTimeLeftMs
equal to 100 * (m + 1), every k ≤ m ticks just lower the phase and
session countdowns by 100 * k, touching nothing else. -/
theorem run_decrements (d : BreathingDurations) (m : Nat) (s : TimerState)
    (hr : s.isRunning = true)
    (hp : s.phaseTimeLeftMs = 100 * ((m : Int) + 1))
    (hs : 100 * ((m : Int) + 1) < s.sessionRemainingMs) :
    ∀ k, k ≤ m →
      ((tick d)^[k] s) =
        { s with phaseTimeLeftMs := s.phaseTimeLeftMs - 100 * k,
                 sessionRemainingMs := s.sessionRemainingMs - 100 * k } := by
  intro k
  induction k with
  | zero =>
    intro _
    cases s
    simp
  | succ j ih =>
    intro hjm
    have hj : j ≤ m := Nat.le_of_succ_le hjm
    have hstep := ih hj
    rw [Function.iterate_succ_apply', hstep]
    rw [tick_decrement]
    · cases s
      simp only [TimerState.mk.injEq, true_and, and_true]
      constructor <;> (push_cast; ring)
    · exact hr
    · simp only [hp] at hs ⊢
      have : (j : Int) ≤ (m : Int) := by exact_mod_cast hj
      omega
    · simp only [hp]
      have hjm' : (j : Int) + 1 ≤ (m : Int) := by exact_mod_cast hjm
      omega

/-- Number of 100 ms ticks the timer spends in a phase of dur seconds:
10 * dur for a positive duration, and a single tick for a zero (or
non-positive) duration, because the tick that enters the phase sets
phaseTimeLeftMs to 0 and only the following tick advances out of it. -/
def ticksFor (dur : Int) : Nat :=
  if dur ≤ 0 then 1 else (10 * dur).toNat

/-- Running one full phase: from a running state at phase index j with a
freshly set countdown of dur seconds and enough session left, after
ticksFor dur ticks the timer sits at phase (j + 1) % 4 with that phase
fully loaded; meanwhile every strictly earlier tick leaves the phase
index at j. -/
theorem run_phase (d : BreathingDurations) (dur : Int) (hdur : 0 ≤ dur)
    (s : TimerState) (hr : s.isRunning = true)
    (hp : s.phaseTimeLeftMs = dur * 1000)
    (hs : 100 * ((ticksFor dur : Nat) : Int) < s.sessionRemainingMs) :
    ((tick d)^[ticksFor dur] s) =
      { s with phaseIndex := (s.phaseIndex + 1) % 4,
               phaseTimeLeftMs := phaseDurationSeconds d ((s.phaseIndex + 1) % 4) * 1000,
               sessionRemainingMs := s.sessionRemainingMs - 100 * (ticksFor dur : Nat) } ∧
    (∀ k, k < ticksFor dur →
      ((tick d)^[k] s).phaseIndex = s.phaseIndex ∧
      ((tick d)^[k] s).phaseTimeLeftMs = s.phaseTimeLeftMs - 100 * k) := by
  rcases eq_or_lt_of_le hdur with hz | hpos
  · -- zero duration: a single tick advances out of the phase
    have ht : ticksFor dur = 1 := by simp [ticksFor, ← hz]
    rw [ht]
    have hs1 : 100 < s.sessionRemainingMs := by
      rw [ht] at hs; simpa using hs
    constructor
    · rw [Function.iterate_one,
        tick_advance d s hr hs1 (by rw [hp, ← hz]; norm_num)]
      cases s
      simp
    · intro k hk
      interval_cases k
      simp
  · -- positive duration: 10 * dur ticks, the last one advancing
    have hten : (1 : Int) ≤ dur := hpos
    have ht : ticksFor dur = (10 * dur).toNat := by
      simp [ticksFor, not_le.2 hpos]
    have htpos : 1 ≤ (10 * dur).toNat := by
      have : (10 : Int) ≤ 10 * dur := by nlinarith
      omega
    set m : Nat := (10 * dur).toNat - 1 with hm
    have hm1 : ((m : Int) + 1) = 10 * dur := by
      have : ((10 * dur).toNat : Int) = 10 * dur := by
        refine Int.toNat_of_nonneg (by nlinarith)
      omega
    have hp' : s.phaseTimeLeftMs = 100 * ((m : Int) + 1) := by
      rw [hp, hm1]; ring
    have hmc : m + 1 = (10 * dur).toNat := by omega
    have hs' : 100 * ((m : Int) + 1) < s.sessionRemainingMs := by
      rw [ht] at hs
      have : (((10 * dur).toNat : Nat) : Int) = (m : Int) + 1 := by
        omega
      rw [this] at hs; exact hs
    have htraj := run_decrements d m s hr hp' hs'
    constructor
    · have hlast : (tick d)^[m + 1] s = tick d ((tick d)^[m] s) :=
        Function.iterate_succ_apply' (tick d) m s
      rw [ht, ← hmc, hlast, htraj m le_rfl]
      rw [tick_advance]
      · cases s
        simp only [TimerState.mk.injEq, true_and, and_true]
        push_cast
        ring
      · exact hr
      · simp only [hp'] at hs' ⊢
        omega
      · simp only [hp']
        omega
    · intro k hk
      have hkm : k ≤ m := by
        rw [ht] at hk
        omega
      rw [htraj k hkm]
      exact ⟨rfl, rfl⟩

/-- Total ticks in one full inhale-hold-exhale-rest cycle. -/
def cycleTicks (d : BreathingDurations) : Nat :=
  ticksFor d.inhale + ticksFor d.hold + ticksFor d.exhale + ticksFor d.rest

theorem ticksFor_of_pos (dur : Int) (h : 1 ≤ dur) :
    ((ticksFor dur : Nat) : Int) = 10 * dur := by
  have hn : ¬ dur ≤ 0 := by omega
  simp only [ticksFor, if_neg hn]
  exact Int.toNat_of_nonneg (by omega)

theorem ticksFor_ge_one (dur : Int) : 1 ≤ ticksFor dur := by
  by_cases h : dur ≤ 0
  · simp [ticksFor, h]
  · simp only [ticksFor, if_neg h]
    omega

theorem phaseDur_one (d : BreathingDurations) :
    phaseDurationSeconds d ((0 + 1) % 4) = d.hold := rfl

theorem phaseDur_two (d : BreathingDurations) :
    phaseDurationSeconds d ((1 + 1) % 4) = d.exhale := rfl

theorem phaseDur_three (d : BreathingDurations) :
    phaseDurationSeconds d ((2 + 1) % 4) = d.rest := rfl

theorem phaseDur_zero (d : BreathingDurations) :
    phaseDurationSeconds d ((3 + 1) % 4) = d.inhale := rfl

/-- C2, amended: one full phase cycle from a freshly entered Inhale
takes exactly cycleTicks d ticks, where a positive phase of dur seconds
takes 10 * dur ticks and a zero-duration phase takes one tick; the timer
is then back at Inhale with the full inhale countdown, no earlier tick
re-enters Inhale, and when all four durations are at least 1 the count
equals 10 times the total cycle seconds (the literal claim). -/
theorem cycle_returns_to_inhale (d : BreathingDurations) (s : TimerState)
    (hi : 1 ≤ d.inhale) (hh : 0 ≤ d.hold) (he : 1 ≤ d.exhale)
    (hre : 0 ≤ d.rest) (hr : s.isRunning = true) (hidx : s.phaseIndex = 0)
    (hp : s.phaseTimeLeftMs = d.inhale * 1000)
    (hs : 100 * ((cycleTicks d : Nat) : Int) < s.sessionRemainingMs) :
    (((tick d)^[cycleTicks d] s).phaseIndex = 0 ∧
     ((tick d)^[cycleTicks d] s).phaseTimeLeftMs = d.inhale * 1000 ∧
     ((tick d)^[cycleTicks d] s).isRunning = true ∧
     ((tick d)^[cycleTicks d] s).sessionRemainingMs
       = s.sessionRemainingMs - 100 * ((cycleTicks d : Nat) : Int)) ∧
    (∀ k, 0 < k → k < cycleTicks d →
      ¬(((tick d)^[k] s).phaseIndex = 0 ∧
        ((tick d)^[k] s).phaseTimeLeftMs = d.inhale * 1000)) ∧
    (1 ≤ d.hold → 1 ≤ d.rest →
      ((cycleTicks d : Nat) : Int)
        = 10 * (d.inhale + d.hold + d.exhale + d.rest)) := by
  have hcy : cycleTicks d
      = ticksFor d.inhale + ticksFor d.hold + ticksFor d.exhale
        + ticksFor d.rest := rfl
  have hsI : 100 * (((ticksFor d.inhale : Nat) : Int) + (ticksFor d.hold : Nat)
      + (ticksFor d.exhale : Nat) + (ticksFor d.rest : Nat))
      < s.sessionRemainingMs := by
    rw [hcy] at hs; push_cast at hs; omega
  -- phase 1: inhale
  obtain ⟨E1, T1⟩ := run_phase d d.inhale (by omega) s hr hp (by omega)
  have i1 : ((tick d)^[ticksFor d.inhale] s).phaseIndex = 1 := by
    rw [E1]; simp [hidx]
  have p1 : ((tick d)^[ticksFor d.inhale] s).phaseTimeLeftMs
      = d.hold * 1000 := by
    rw [E1]
    show phaseDurationSeconds d ((s.phaseIndex + 1) % 4) * 1000 = _
    rw [hidx, phaseDur_one]
  have r1 : ((tick d)^[ticksFor d.inhale] s).isRunning = true := by
    rw [E1]; exact hr
  have m1 : ((tick d)^[ticksFor d.inhale] s).sessionRemainingMs
      = s.sessionRemainingMs - 100 * (ticksFor d.inhale : Nat) := by
    rw [E1]
  -- phase 2: hold
  obtain ⟨E2, T2⟩ := run_phase d d.hold hh _ r1 p1 (by rw [m1]; omega)
  have i2 : ((tick d)^[ticksFor d.hold] ((tick d)^[ticksFor d.inhale] s)).phaseIndex
      = 2 := by
    rw [E2]
    show ((((tick d)^[ticksFor d.inhale] s).phaseIndex + 1) % 4) = 2
    rw [i1]
  have p2 : ((tick d)^[ticksFor d.hold] ((tick d)^[ticksFor d.inhale] s)).phaseTimeLeftMs
      = d.exhale * 1000 := by
    rw [E2]
    show phaseDurationSeconds d ((((tick d)^[ticksFor d.inhale] s).phaseIndex + 1) % 4)
        * 1000 = _
    rw [i1, phaseDur_two]
  have r2 : ((tick d)^[ticksFor d.hold] ((tick d)^[ticksFor d.inhale] s)).isRunning
      = true := by
    rw [E2]; exact r1
  have m2 : ((tick d)^[ticksFor d.hold] ((tick d)^[ticksFor d.inhale] s)).sessionRemainingMs
      = s.sessionRemainingMs - 100 * (ticksFor d.inhale : Nat)
        - 100 * (ticksFor d.hold : Nat) := by
    rw [E2]
    show ((tick d)^[ticksFor d.inhale] s).sessionRemainingMs
        - 100 * (ticksFor d.hold : Nat) = _
    rw [m1]
  -- phase 3: exhale
  obtain ⟨E3, T3⟩ := run_phase d d.exhale (by omega) _ r2 p2 (by rw [m2]; omega)
  have i3 : ((tick d)^[ticksFor d.exhale]
      ((tick d)^[ticksFor d.hold] ((tick d)^[ticksFor d.inhale] s))).phaseIndex
      = 3 := by
    rw [E3]
    show ((((tick d)^[ticksFor d.hold] ((tick d)^[ticksFor d.inhale] s)).phaseIndex
        + 1) % 4) = 3
    rw [i2]
  have p3 : ((tick d)^[ticksFor d.exhale]
      ((tick d)^[ticksFor d.hold] ((tick d)^[ticksFor d.inhale] s))).phaseTimeLeftMs
      = d.rest * 1000 := by
    rw [E3]
    show phaseDurationSeconds d
        ((((tick d)^[ticksFor d.hold] ((tick d)^[ticksFor d.inhale] s)).phaseIndex
          + 1) % 4) * 1000 = _
    rw [i2, phaseDur_three]
  have r3 : ((tick d)^[ticksFor d.exhale]
      ((tick d)^[ticksFor d.hold] ((tick d)^[ticksFor d.inhale] s))).isRunning
      = true := by
    rw [E3]; exact r2
  have m3 : ((tick d)^[ticksFor d.exhale]
      ((tick d)^[ticksFor d.hold] ((tick d)^[ticksFor d.inhale] s))).sessionRemainingMs
      = s.sessionRemainingMs - 100 * (ticksFor d.inhale : Nat)
        - 100 * (ticksFor d.hold : Nat) - 100 * (ticksFor d.exhale : Nat) := by
    rw [E3]
    show ((tick d)^[ticksFor d.hold] ((tick d)^[ticksFor d.inhale] s)).sessionRemainingMs
        - 100 * (ticksFor d.exhale : Nat) = _
    rw [m2]
  -- phase 4: rest
  obtain ⟨E4, T4⟩ := run_phase d d.rest hre _ r3 p3 (by rw [m3]; omega)
  have hco : (tick d)^[cycleTicks d] s
      = (tick d)^[ticksFor d.rest] ((tick d)^[ticksFor d.exhale]
          ((tick d)^[ticksFor d.hold] ((tick d)^[ticksFor d.inhale] s))) := by
    have hsum : cycleTicks d
        = ticksFor d.rest + (ticksFor d.exhale
            + (ticksFor d.hold + ticksFor d.inhale)) := by
      rw [hcy]; omega
    rw [hsum, Function.iterate_add_apply, Function.iterate_add_apply,
      Function.iterate_add_apply]
  refine ⟨⟨?_, ?_, ?_, ?_⟩, ?_, ?_⟩
  · rw [hco, E4]
    show ((((tick d)^[ticksFor d.exhale]
        ((tick d)^[ticksFor d.hold] ((tick d)^[ticksFor d.inhale] s))).phaseIndex
          + 1) % 4) = 0
    rw [i3]
  · rw [hco, E4]
    show phaseDurationSeconds d
        ((((tick d)^[ticksFor d.exhale]
          ((tick d)^[ticksFor d.hold] ((tick d)^[ticksFor d.inhale] s))).phaseIndex
            + 1) % 4) * 1000 = _
    rw [i3, phaseDur_zero]
  · rw [hco, E4]; exact r3
  · rw [hco, E4]
    show ((tick d)^[ticksFor d.exhale]
        ((tick d)^[ticksFor d.hold] ((tick d)^[ticksFor d.inhale] s))).sessionRemainingMs
        - 100 * (ticksFor d.rest : Nat) = _
    rw [m3, hcy]
    push_cast
    ring
  · -- no earlier tick re-enters Inhale
    intro k hk0 hkc
    rw [hcy] at hkc
    rcases lt_or_ge k (ticksFor d.inhale) with h1 | h1
    · rintro ⟨_, q2⟩
      obtain ⟨_, tp⟩ := T1 k h1
      rw [tp, hp] at q2
      omega
    · rcases lt_or_ge k (ticksFor d.inhale + ticksFor d.hold) with h2 | h2
      · obtain ⟨j, rfl⟩ : ∃ j, k = j + ticksFor d.inhale :=
          ⟨k - ticksFor d.inhale, by omega⟩
        rintro ⟨q1, _⟩
        rw [Function.iterate_add_apply] at q1
        obtain ⟨ti, _⟩ := T2 j (by omega)
        rw [ti, i1] at q1
        cases q1
      · rcases lt_or_ge k (ticksFor d.inhale + ticksFor d.hold
            + ticksFor d.exhale) with h3 | h3
        · obtain ⟨j, rfl⟩ : ∃ j,
              k = j + (ticksFor d.hold + ticksFor d.inhale) :=
            ⟨k - (ticksFor d.hold + ticksFor d.inhale), by omega⟩
          rintro ⟨q1, _⟩
          rw [Function.iterate_add_apply, Function.iterate_add_apply] at q1
          obtain ⟨ti, _⟩ := T3 j (by omega)
          rw [ti, i2] at q1
          cases q1
        · obtain ⟨j, rfl⟩ : ∃ j,
              k = j + (ticksFor d.exhale
                + (ticksFor d.hold + ticksFor d.inhale)) :=
            ⟨k - (ticksFor d.exhale + (ticksFor d.hold + ticksFor d.inhale)),
              by omega⟩
          rintro ⟨q1, _⟩
          rw [Function.iterate_add_apply, Function.iterate_add_apply,
            Function.iterate_add_apply] at q1
          obtain ⟨ti, _⟩ := T4 j (by omega)
          rw [ti, i3] at q1
          cases q1
  · -- with all durations positive the count is 10 times the cycle seconds
    intro h2 h4
    have e1 := ticksFor_of_pos d.inhale hi
    have e2 := ticksFor_of_pos d.hold h2
    have e3 := ticksFor_of_pos d.exhale he
    have e4 := ticksFor_of_pos d.rest h4
    rw [hcy]
    push_cast
    omega

/-- Witness for the amended C2 at the pattern inhale 1, hold 0,
exhale 1, rest 0, whose cycle takes 22 ticks. -/
theorem cycle_returns_to_inhale_witness :
    ((tick ⟨1, 0, 1, 0⟩)^[cycleTicks ⟨1, 0, 1, 0⟩]
      ⟨true, 0, 1000, 100000, false⟩).phaseIndex = 0 ∧
    ((tick ⟨1, 0, 1, 0⟩)^[cycleTicks ⟨1, 0, 1, 0⟩]
      ⟨true, 0, 1000, 100000, false⟩).phaseTimeLeftMs = 1000 ∧
    ((tick ⟨1, 0, 1, 0⟩)^[cycleTicks ⟨1, 0, 1, 0⟩]
      ⟨true, 0, 1000, 100000, false⟩).isRunning = true ∧
    ((tick ⟨1, 0, 1, 0⟩)^[cycleTicks ⟨1, 0, 1, 0⟩]
      ⟨true, 0, 1000, 100000, false⟩).sessionRemainingMs
      = 100000 - 100 * ((cycleTicks ⟨1, 0, 1, 0⟩ : Nat) : Int) :=
  (cycle_returns_to_inhale ⟨1, 0, 1, 0⟩ ⟨true, 0, 1000, 100000, false⟩
    (by decide) (by decide) (by decide) (by decide) rfl rfl rfl (by decide)).1

/-- Counterexample to C2 as stated: for the pattern inhale 1, hold 0,
exhale 1, rest 0 the claim predicts a cycle of 10 * (1 + 0 + 1 + 0) = 20
ticks, but after 20 ticks the timer is still in Exhale (index 2); Inhale
is only re-entered after 22 ticks, each zero-duration phase having
consumed one extra tick. -/
theorem cycle_length_counterexample :
    ((tick ⟨1, 0, 1, 0⟩)^[20] ⟨true, 0, 1000, 100000, false⟩).phaseIndex = 2 ∧
    ((tick ⟨1, 0, 1, 0⟩)^[22] ⟨true, 0, 1000, 100000, false⟩).phaseIndex = 0 ∧
    ((tick ⟨1, 0, 1, 0⟩)^[22] ⟨true, 0, 1000, 100000, false⟩).phaseTimeLeftMs
      = 1000 := by
  decide

/-- C3, amended: a zero-duration phase does not persist.  Whenever the
phase countdown stands at 0 (as it does right after entering a phase of
duration 0), the very next tick advances to the following phase, loads
its full countdown and keeps the session running; so with hold and rest
both 0 the timer shows a zero-duration phase for exactly one 100 ms tick
rather than freezing on it, and only Inhale and Exhale ever hold the
display across ticks. -/
theorem zero_phase_advances_next_tick (d : BreathingDurations)
    (s : TimerState) (hr : s.isRunning = true)
    (h0 : s.phaseTimeLeftMs = 0) (hs : 100 < s.sessionRemainingMs) :
    (tick d s).phaseIndex = (s.phaseIndex + 1) % 4 ∧
    (tick d s).phaseTimeLeftMs
      = phaseDurationSeconds d ((s.phaseIndex + 1) % 4) * 1000 ∧
    (tick d s).isRunning = true ∧
    (tick d s).showSessionComplete = s.showSessionComplete := by
  rw [tick_advance d s hr hs (by rw [h0]; norm_num)]
  exact ⟨rfl, rfl, hr, rfl⟩

/-- Witness for the amended C3: on the pattern inhale 4, hold 0,
exhale 4, rest 0, from Hold just entered with 0 ms left, one tick moves
to Exhale with the full 4000 ms. -/
theorem zero_phase_advances_next_tick_witness :
    (tick ⟨4, 0, 4, 0⟩ ⟨true, 1, 0, 99900, false⟩).phaseIndex = (1 + 1) % 4 ∧
    (tick ⟨4, 0, 4, 0⟩ ⟨true, 1, 0, 99900, false⟩).phaseTimeLeftMs
      = phaseDurationSeconds ⟨4, 0, 4, 0⟩ ((1 + 1) % 4) * 1000 ∧
    (tick ⟨4, 0, 4, 0⟩ ⟨true, 1, 0, 99900, false⟩).isRunning = true ∧
    (tick ⟨4, 0, 4, 0⟩ ⟨true, 1, 0, 99900, false⟩).showSessionComplete = false :=
  zero_phase_advances_next_tick ⟨4, 0, 4, 0⟩ ⟨true, 1, 0, 99900, false⟩
    rfl rfl (by decide)

/-- Counterexample to C3 as stated: with the pattern inhale 4, hold 0,
exhale 4, rest 0, a tick taken at the end of Inhale advances into Hold,
a zero-duration phase, and ends there with 0 ms left; the advance out of
the zero-duration phase happens only on the next tick, not within the
same tick, so at the end of this tick the current phase is a
zero-duration one. -/
theorem zero_phase_displayed_counterexample :
    (tick ⟨4, 0, 4, 0⟩ ⟨true, 0, 100, 100000, false⟩).phaseIndex = 1 ∧
    phaseDurationSeconds ⟨4, 0, 4, 0⟩ 1 = 0 ∧
    (tick ⟨4, 0, 4, 0⟩ ⟨true, 0, 100, 100000, false⟩).phaseTimeLeftMs = 0 := by
  decide

/-! ### C10: the session-complete invariant -/

/-- The implicit invariant of C10: a completed session shows 0 ms left
and is not running. -/
def timerInv (s : TimerState) : Prop :=
  s.showSessionComplete = true → s.sessionRemainingMs = 0 ∧ s.isRunning = false

instance (s : TimerState) : Decidable (timerInv s) := by
  unfold timerInv; infer_instance

/-- C10: timerInv holds for the initial state and is preserved by every
operation: the tick, startSession with a non-negative duration, the
pause and resume toggle, and applySettings. -/
theorem session_complete_invariant :
    timerInv initialTimerState ∧
    (∀ d s, timerInv s → timerInv (tick d s)) ∧
    (∀ d dur, 0 ≤ dur → timerInv (startSession d dur)) ∧
    (∀ s, timerInv s → timerInv (toggleSessionRunning s)) ∧
    (∀ d sec s, timerInv (applySettingsTimer d sec s)) := by
  refine ⟨?_, ?_, ?_, ?_, ?_⟩
  · intro h
    simp [initialTimerState] at h
  · intro d s hinv
    by_cases hr : s.isRunning = true
    · by_cases hs : s.sessionRemainingMs ≤ 100
      · rw [tick_complete_eq d s hr hs]
        intro _
        exact ⟨rfl, rfl⟩
      · have hs' := not_le.1 hs
        by_cases hp : s.phaseTimeLeftMs ≤ 100
        · rw [tick_advance d s hr hs' hp]
          intro hcp
          obtain ⟨_, h2⟩ := hinv hcp
          rw [h2] at hr
          cases hr
        · rw [tick_decrement d s hr hs' (not_le.1 hp)]
          intro hcp
          obtain ⟨_, h2⟩ := hinv hcp
          rw [h2] at hr
          cases hr
    · rw [tick_not_running d s (by simpa using hr)]
      exact hinv
  · intro d dur _ h
    simp [startSession] at h
  · intro s hinv
    by_cases hg : s.sessionRemainingMs ≤ 0
    · rw [toggleSessionRunning, if_pos hg]
      exact hinv
    · rw [toggleSessionRunning, if_neg hg]
      intro hcp
      obtain ⟨h1, _⟩ := hinv hcp
      exact absurd h1 (by omega)
  · intro d sec s h
    simp [applySettingsTimer] at h

/-- Witness for C10 at the default pattern and initial state. -/
theorem session_complete_invariant_witness :
    timerInv (tick ⟨4, 4, 4, 2⟩ initialTimerState) ∧
    timerInv (startSession ⟨4, 4, 4, 2⟩ 600) ∧
    timerInv (toggleSessionRunning initialTimerState) ∧
    timerInv (applySettingsTimer ⟨4, 4, 4, 2⟩ 600 initialTimerState) :=
  ⟨session_complete_invariant.2.1 ⟨4, 4, 4, 2⟩ initialTimerState (by decide),
   session_complete_invariant.2.2.1 ⟨4, 4, 4, 2⟩ 600 (by decide),
   session_complete_invariant.2.2.2.1 initialTimerState (by decide),
   session_complete_invariant.2.2.2.2 ⟨4, 4, 4, 2⟩ 600 initialTimerState⟩

/-! ## Settings normalization, App.tsx lines 109 to 173 and
data/breathing.ts

JavaScript numeric values reachable from JSON.parse are modelled as
rationals extended with the two infinities; JSON.parse never produces
NaN, but a literal such as 1e999 parses to Infinity.  A stored field is
either absent, present but not a number, or a number; the code tests it
with typeof. -/

/-- A JavaScript number as produced by JSON.parse: finite, or one of
the two infinities (from overflowing literals such as 1e999). -/
inductive JSNum where
  | fin (q : ℚ)
  | posInf
  | negInf
deriving DecidableEq, Repr

/-- The numeric order on JSNum used by Math.max and Math.min. -/
def jsLe : JSNum → JSNum → Bool
  | .negInf, _ => true
  | _, .posInf => true
  | .fin a, .fin b => a ≤ b
  | .posInf, _ => false
  | .fin _, .negInf => false

/-- Math.max on two numbers. -/
def jsMax (a b : JSNum) : JSNum := if jsLe a b then b else a

/-- Math.min on two numbers. -/
def jsMin (a b : JSNum) : JSNum := if jsLe a b then a else b

/-- A field of the parsed stored record, as the typeof test sees it:
absent (undefined), present with a non-number value, or a number. -/
inductive JSField where
  | absent
  | notNum
  | num (n : JSNum)
deriving DecidableEq, Repr

/-- The four keys of the breathing record. -/
inductive BreathPhaseKey where
  | inhale
  | hold
  | exhale
  | rest
deriving DecidableEq, Repr

/-- Per-phase bounds, data/breathing.ts lines 23 to 31. -/
structure PhaseLimits where
  min : ℚ
  max : ℚ
deriving DecidableEq, Repr

/-- The breathingLimits record of data/breathing.ts: inhale, hold and
exhale bounded to the range 1 to 10, rest to the range 0 to 5. -/
def breathingLimits : BreathPhaseKey → PhaseLimits
  | .inhale => ⟨1, 10⟩
  | .hold => ⟨1, 10⟩
  | .exhale => ⟨1, 10⟩
  | .rest => ⟨0, 5⟩

/-- The clamp helper of applySettings, App.tsx lines 110 to 113:
Math.min of the max bound with Math.max of the min bound and the
value. -/
def clamp (key : BreathPhaseKey) (value : JSNum) : JSNum :=
  jsMin (.fin (breathingLimits key).max) (jsMax (.fin (breathingLimits key).min) value)

/-- The breathing durations of a settings object. -/
structure BreathingNums where
  inhale : JSNum
  hold : JSNum
  exhale : JSNum
  rest : JSNum
deriving DecidableEq, Repr

/-- The settings object shape of DEFAULT_SETTINGS. -/
structure Settings where
  sessionDurationSeconds : JSNum
  breathing : BreathingNums
  animationSpeed : JSNum
deriving DecidableEq, Repr

/-- DEFAULT_SETTINGS of data/breathing.ts lines 12 to 21. -/
def DEFAULT_SETTINGS : Settings :=
  { sessionDurationSeconds := .fin 600
    breathing := ⟨.fin 4, .fin 4, .fin 4, .fin 2⟩
    animationSpeed := .fin 1 }

/-- The effect of applySettings (App.tsx lines 109 to 125) on the
resulting configuration: the four breathing durations are clamped into
breathingLimits, while sessionDurationSeconds and animationSpeed are
stored as given, without any clamping. -/
def applySettingsNorm (s : Settings) : Settings :=
  { sessionDurationSeconds := s.sessionDurationSeconds
    breathing :=
      { inhale := clamp .inhale s.breathing.inhale
        hold := clamp .hold s.breathing.hold
        exhale := clamp .exhale s.breathing.exhale
        rest := clamp .rest s.breathing.rest }
    animationSpeed := s.animationSpeed }

/-- The parsed breathing sub-record: parsed.breathing is either not an
object usable for lookups (absent, null or a primitive, in which case
optional chaining yields undefined for every key) or an object with
four fields. -/
inductive RawBreathing where
  | noObj
  | obj (inhale hold exhale rest : JSField)
deriving DecidableEq, Repr

/-- Optional-chained access parsed.breathing?.inhale. -/
def rawInhale : RawBreathing → JSField
  | .noObj => .absent
  | .obj i _ _ _ => i

/-- Optional-chained access parsed.breathing?.hold. -/
def rawHold : RawBreathing → JSField
  | .noObj => .absent
  | .obj _ h _ _ => h

/-- Optional-chained access parsed.breathing?.exhale. -/
def rawExhale : RawBreathing → JSField
  | .noObj => .absent
  | .obj _ _ e _ => e

/-- Optional-chained access parsed.breathing?.rest. -/
def rawRest : RawBreathing → JSField
  | .noObj => .absent
  | .obj _ _ _ r => r

/-- The parsed stored record as the normalizer reads it. -/
structure RawSettings where
  sessionDurationSeconds : JSField
  breathing : RawBreathing
  animationSpeed : JSField
deriving DecidableEq, Repr

/-- The per-field typeof test of readSettings: keep a number, fall back
to the default otherwise. -/
def orDefault (dflt : JSNum) : JSField → JSNum
  | .num n => n
  | _ => dflt

/-- The normalized object built inside readSettings, App.tsx lines 140
to 167: every field falls back to its DEFAULT_SETTINGS value when it is
absent or not a number. -/
def readNormalize (r : RawSettings) : Settings :=
  { sessionDurationSeconds :=
      orDefault DEFAULT_SETTINGS.sessionDurationSeconds r.sessionDurationSeconds
    breathing :=
      { inhale := orDefault DEFAULT_SETTINGS.breathing.inhale (rawInhale r.breathing)
        hold := orDefault DEFAULT_SETTINGS.breathing.hold (rawHold r.breathing)
        exhale := orDefault DEFAULT_SETTINGS.breathing.exhale (rawExhale r.breathing)
        rest := orDefault DEFAULT_SETTINGS.breathing.rest (rawRest r.breathing) }
    animationSpeed :=
      orDefault DEFAULT_SETTINGS.animationSpeed r.animationSpeed }

/-- The full load-time normalization applied to a parsed object record:
readSettings builds the normalized object and hands it to
applySettings, which clamps the breathing durations. -/
def readSettingsResult (r : RawSettings) : Settings :=
  applySettingsNorm (readNormalize r)

/-! ### Clamp lemmas -/

theorem clamp_between (lo hi : ℚ) (h : lo ≤ hi) (v : JSNum) :
    ∃ q : ℚ, jsMin (.fin hi) (jsMax (.fin lo) v) = .fin q ∧ lo ≤ q ∧ q ≤ hi := by
  cases v with
  | fin q =>
    by_cases h1 : lo ≤ q
    · by_cases h2 : hi ≤ q
      · refine ⟨hi, ?_, h, le_rfl⟩
        simp [jsMax, jsMin, jsLe, h1, h2]
      · refine ⟨q, ?_, h1, le_of_not_le h2⟩
        simp [jsMax, jsMin, jsLe, h1, h2]
    · by_cases h2 : hi ≤ lo
      · refine ⟨hi, ?_, h, le_rfl⟩
        simp [jsMax, jsMin, jsLe, h1, h2]
      · refine ⟨lo, ?_, le_rfl, le_of_not_le h2⟩
        simp [jsMax, jsMin, jsLe, h1, h2]
  | posInf =>
    refine ⟨hi, ?_, h, le_rfl⟩
    simp [jsMax, jsMin, jsLe]
  | negInf =>
    by_cases h2 : hi ≤ lo
    · refine ⟨hi, ?_, h, le_rfl⟩
      simp [jsMax, jsMin, jsLe, h2]
    · refine ⟨lo, ?_, le_rfl, le_of_not_le h2⟩
      simp [jsMax, jsMin, jsLe, h2]

theorem clamp_mem (key : BreathPhaseKey) (v : JSNum) :
    ∃ q : ℚ, clamp key v = .fin q ∧
      (breathingLimits key).min ≤ q ∧ q ≤ (breathingLimits key).max := by
  unfold clamp
  exact clamp_between _ _ (by cases key <;> norm_num [breathingLimits]) v

theorem clamp_of_mem (key : BreathPhaseKey) (q : ℚ)
    (h1 : (breathingLimits key).min ≤ q)
    (h2 : q ≤ (breathingLimits key).max) :
    clamp key (.fin q) = .fin q := by
  have hlm : (breathingLimits key).min ≤ (breathingLimits key).max := h1.trans h2
  by_cases h3 : (breathingLimits key).max ≤ q
  · have hq : q = (breathingLimits key).max := le_antisymm h2 h3
    subst hq
    simp [clamp, jsMax, jsMin, jsLe, hlm]
  · simp [clamp, jsMax, jsMin, jsLe, h1, h3]

theorem clamp_clamp (key : BreathPhaseKey) (v : JSNum) :
    clamp key (clamp key v) = clamp key v := by
  obtain ⟨q, hq, h1, h2⟩ := clamp_mem key v
  rw [hq, clamp_of_mem key q h1 h2]

/-- Membership of a JSNum in a finite closed interval. -/
def finBetween (lo hi : ℚ) (n : JSNum) : Prop :=
  ∃ q : ℚ, n = .fin q ∧ lo ≤ q ∧ q ≤ hi

/-- C4, amended: load-time normalization clamps the four breathing
durations into their declared bounds (inhale, hold and exhale into 1 to
10, rest into 0 to 5; an inhale of 15 becomes 10), but it does not
clamp the session length or the animation speed: applySettings stores
those exactly as the per-field default fallback produced them, so a
negative session length or an out-of-range animation speed survives
normalization. -/
theorem normalized_breathing_within_bounds (r : RawSettings) :
    finBetween 1 10 (readSettingsResult r).breathing.inhale ∧
    finBetween 1 10 (readSettingsResult r).breathing.hold ∧
    finBetween 1 10 (readSettingsResult r).breathing.exhale ∧
    finBetween 0 5 (readSettingsResult r).breathing.rest ∧
    (readSettingsResult r).sessionDurationSeconds
      = orDefault (.fin 600) r.sessionDurationSeconds ∧
    (readSettingsResult r).animationSpeed
      = orDefault (.fin 1) r.animationSpeed ∧
    (rawInhale r.breathing = .num (.fin 15) →
      (readSettingsResult r).breathing.inhale = .fin 10) := by
  refine ⟨?_, ?_, ?_, ?_, rfl, rfl, ?_⟩
  · exact clamp_mem .inhale _
  · exact clamp_mem .hold _
  · exact clamp_mem .exhale _
  · exact clamp_mem .rest _
  · intro h
    show clamp .inhale
      (orDefault DEFAULT_SETTINGS.breathing.inhale (rawInhale r.breathing)) = _
    rw [h]
    decide

/-- Witness for the amended C4 at the record with session -5 seconds,
inhale 15 and animation speed 100. -/
theorem normalized_breathing_within_bounds_witness :
    finBetween 1 10 (readSettingsResult
      ⟨.num (.fin (-5)), .obj (.num (.fin 15)) (.num (.fin 4)) (.num (.fin 4))
        (.num (.fin 2)), .num (.fin 100)⟩).breathing.inhale ∧
    (readSettingsResult
      ⟨.num (.fin (-5)), .obj (.num (.fin 15)) (.num (.fin 4)) (.num (.fin 4))
        (.num (.fin 2)), .num (.fin 100)⟩).breathing.inhale = .fin 10 :=
  ⟨(normalized_breathing_within_bounds _).1,
   (normalized_breathing_within_bounds
      ⟨.num (.fin (-5)), .obj (.num (.fin 15)) (.num (.fin 4)) (.num (.fin 4))
        (.num (.fin 2)), .num (.fin 100)⟩).2.2.2.2.2.2 rfl⟩

/-- Counterexample to C4 as stated: the record with session length -5
and animation speed 100 normalizes to a settings object whose session
length is still -5 (negative) and whose animation speed is still 100,
outside every documented animation-speed bound; neither field is
clamped by applySettings. -/
theorem unclamped_session_speed_counterexample :
    (readSettingsResult
      ⟨.num (.fin (-5)), .obj (.num (.fin 15)) (.num (.fin 4)) (.num (.fin 4))
        (.num (.fin 2)), .num (.fin 100)⟩).sessionDurationSeconds
      = .fin (-5) ∧
    ¬((0 : ℚ) ≤ -5) ∧
    (readSettingsResult
      ⟨.num (.fin (-5)), .obj (.num (.fin 15)) (.num (.fin 4)) (.num (.fin 4))
        (.num (.fin 2)), .num (.fin 100)⟩).animationSpeed = .fin 100 ∧
    ¬((100 : ℚ) ≤ 2) := by
  decide

/-- C5, amended: each field is replaced by its documented default
exactly when it is absent or not a number, the typeof test of
readSettings; a numeric field is kept verbatim even when it is not
finite, so an Infinity parsed from a stored literal such as 1e999
survives in sessionDurationSeconds and animationSpeed (the breathing
durations clamp it into their bounds). -/
theorem default_fallback_per_field (r : RawSettings) :
    ((r.sessionDurationSeconds = .absent ∨ r.sessionDurationSeconds = .notNum) →
      (readSettingsResult r).sessionDurationSeconds = .fin 600) ∧
    ((r.animationSpeed = .absent ∨ r.animationSpeed = .notNum) →
      (readSettingsResult r).animationSpeed = .fin 1) ∧
    ((rawInhale r.breathing = .absent ∨ rawInhale r.breathing = .notNum) →
      (readSettingsResult r).breathing.inhale = .fin 4) ∧
    ((rawHold r.breathing = .absent ∨ rawHold r.breathing = .notNum) →
      (readSettingsResult r).breathing.hold = .fin 4) ∧
    ((rawExhale r.breathing = .absent ∨ rawExhale r.breathing = .notNum) →
      (readSettingsResult r).breathing.exhale = .fin 4) ∧
    ((rawRest r.breathing = .absent ∨ rawRest r.breathing = .notNum) →
      (readSettingsResult r).breathing.rest = .fin 2) ∧
    (∀ n, r.sessionDurationSeconds = .num n →
      (readSettingsResult r).sessionDurationSeconds = n) ∧
    (∀ n, r.animationSpeed = .num n →
      (readSettingsResult r).animationSpeed = n) := by
  refine ⟨?_, ?_, ?_, ?_, ?_, ?_, ?_, ?_⟩
  · rintro (h | h) <;>
      (show orDefault DEFAULT_SETTINGS.sessionDurationSeconds
        r.sessionDurationSeconds = _) <;> rw [h] <;> rfl
  · rintro (h | h) <;>
      (show orDefault DEFAULT_SETTINGS.animationSpeed r.animationSpeed = _) <;>
      rw [h] <;> rfl
  · rintro (h | h) <;>
      (show clamp .inhale (orDefault DEFAULT_SETTINGS.breathing.inhale
        (rawInhale r.breathing)) = _) <;> rw [h] <;> decide
  · rintro (h | h) <;>
      (show clamp .hold (orDefault DEFAULT_SETTINGS.breathing.hold
        (rawHold r.breathing)) = _) <;> rw [h] <;> decide
  · rintro (h | h) <;>
      (show clamp .exhale (orDefault DEFAULT_SETTINGS.breathing.exhale
        (rawExhale r.breathing)) = _) <;> rw [h] <;> decide
  · rintro (h | h) <;>
      (show clamp .rest (orDefault DEFAULT_SETTINGS.breathing.rest
        (rawRest r.breathing)) = _) <;> rw [h] <;> decide
  · intro n h
    show orDefault DEFAULT_SETTINGS.sessionDurationSeconds
      r.sessionDurationSeconds = _
    rw [h]
    rfl
  · intro n h
    show orDefault DEFAULT_SETTINGS.animationSpeed r.animationSpeed = _
    rw [h]
    rfl

/-- Witness for the amended C5: an absent session field defaults to
600, an absent breathing object defaults every duration, and a numeric
animation speed is kept even when it is Infinity. -/
theorem default_fallback_per_field_witness :
    (readSettingsResult ⟨.absent, .noObj, .num .posInf⟩).sessionDurationSeconds
      = .fin 600 ∧
    (readSettingsResult ⟨.absent, .noObj, .num .posInf⟩).breathing.inhale
      = .fin 4 ∧
    (readSettingsResult ⟨.absent, .noObj, .num .posInf⟩).animationSpeed
      = .posInf :=
  ⟨(default_fallback_per_field ⟨.absent, .noObj, .num .posInf⟩).1 (Or.inl rfl),
   (default_fallback_per_field ⟨.absent, .noObj, .num .posInf⟩).2.2.1 (Or.inl rfl),
   (default_fallback_per_field ⟨.absent, .noObj, .num .posInf⟩).2.2.2.2.2.2.2
     .posInf rfl⟩

/-- Counterexample to C5 as stated: a stored animationSpeed of Infinity
(a number by typeof, but not a finite number) is not replaced by the
default 1; normalization keeps it, and since applySettings does not
clamp animation speed the loaded settings carry Infinity. -/
theorem nonfinite_number_kept_counterexample :
    (readSettingsResult ⟨.num .posInf, .noObj, .num .posInf⟩).animationSpeed
      = .posInf ∧
    JSNum.posInf ≠ DEFAULT_SETTINGS.animationSpeed ∧
    (readSettingsResult ⟨.num .posInf, .noObj, .num .posInf⟩).sessionDurationSeconds
      = .posInf := by
  decide

/-! ### Idempotence (C7) -/

/-- A settings object re-read as a stored record: every field is
present and numeric. -/
def toRaw (c : Settings) : RawSettings :=
  { sessionDurationSeconds := .num c.sessionDurationSeconds
    breathing := .obj (.num c.breathing.inhale) (.num c.breathing.hold)
      (.num c.breathing.exhale) (.num c.breathing.rest)
    animationSpeed := .num c.animationSpeed }

theorem applySettingsNorm_idem (c : Settings) :
    applySettingsNorm (applySettingsNorm c) = applySettingsNorm c := by
  simp [applySettingsNorm, clamp_clamp]

/-- C7: the load-time normalization (per-field default fallback
followed by clamping of the breathing durations) is idempotent:
applying it to its own output returns an identical settings object. -/
theorem normalization_idempotent (r : RawSettings) :
    readSettingsResult (toRaw (readSettingsResult r)) = readSettingsResult r := by
  show applySettingsNorm (readNormalize (toRaw (readSettingsResult r)))
    = readSettingsResult r
  have h : readNormalize (toRaw (readSettingsResult r)) = readSettingsResult r := rfl
  rw [h]
  exact applySettingsNorm_idem (readNormalize r)

/-! ### Loading a stored string (C6) -/

/-- A stored settings string as readSettings examines it.  empty
models the stored empty string: it is falsy, so the guard at App.tsx
lines 129 to 134 returns before any parsing (even though JSON.parse
would throw on it).  parseFail models a non-empty string JSON.parse
throws on; jsNull models the string null, whose parse result throws a
TypeError at the first property access; nonObject models any other
non-object parse result (a number, string or boolean), on which every
property access yields undefined; obj carries a parsed object
record. -/
inductive StoredParse where
  | empty
  | parseFail
  | jsNull
  | nonObject
  | obj (r : RawSettings)
deriving DecidableEq, Repr

/-- readSettings on a stored string, App.tsx lines 127 to 173.  The
first component tells whether the stored record was removed from
storage: removal happens only in the catch branch, reached when
JSON.parse throws on a non-empty string or when the parse result is
null (property access on null throws).  The empty string is falsy, so
the early-return guard applies the defaults without ever parsing and
without removal.  A non-null non-object parse result reaches the
normal path, where every field falls back to its default and the
record stays in storage.  The second component is the settings object
applied. -/
def readStoredSettings : StoredParse → Bool × Settings
  | .empty => (false, applySettingsNorm DEFAULT_SETTINGS)
  | .parseFail => (true, applySettingsNorm DEFAULT_SETTINGS)
  | .jsNull => (true, applySettingsNorm DEFAULT_SETTINGS)
  | .nonObject => (false, readSettingsResult ⟨.absent, .noObj, .absent⟩)
  | .obj r => (false, readSettingsResult r)

/-- C6, amended: a non-empty stored string JSON.parse throws on, and
the string null, load the full defaults object with
sessionDurationSeconds 600, breathing 4/4/4/2 and animationSpeed 1,
and the corrupt record is removed.  The stored empty string, although
unparseable, is falsy and short-circuits before parsing: it loads the
defaults object but the record is not removed.  A stored string that
parses to a non-null non-object (such as 42) also loads exactly the
defaults object without removal.  No case surfaces an error: loading
always produces a settings object. -/
theorem malformed_settings_load :
    readStoredSettings .parseFail
      = (true, ⟨.fin 600, ⟨.fin 4, .fin 4, .fin 4, .fin 2⟩, .fin 1⟩) ∧
    readStoredSettings .jsNull
      = (true, ⟨.fin 600, ⟨.fin 4, .fin 4, .fin 4, .fin 2⟩, .fin 1⟩) ∧
    readStoredSettings .empty
      = (false, ⟨.fin 600, ⟨.fin 4, .fin 4, .fin 4, .fin 2⟩, .fin 1⟩) ∧
    readStoredSettings .nonObject
      = (false, ⟨.fin 600, ⟨.fin 4, .fin 4, .fin 4, .fin 2⟩, .fin 1⟩) := by
  decide

/-- Counterexample to C6 as stated: the stored empty string is not
parseable as JSON, and a stored string such as 42 parses to a
non-object; both yield the defaults object, but in neither case is the
stored record removed, contradicting the claim that every
not-parseable-or-not-object string is removed from storage. -/
theorem unremoved_corrupt_record_counterexample :
    (readStoredSettings .empty).1 ≠ true ∧
    (readStoredSettings .empty).2 = DEFAULT_SETTINGS ∧
    (readStoredSettings .nonObject).1 ≠ true ∧
    (readStoredSettings .nonObject).2 = DEFAULT_SETTINGS := by
  decide

/-! ### Save and reload round-trip (C8) -/

/-- A number serialized by JSON.stringify and parsed back: a finite
number round-trips exactly, while Infinity is written as null and so
comes back as a non-number. -/
def jsonNumField : JSNum → JSField
  | .fin q => .num (.fin q)
  | _ => .notNum

/-- The payload handleSaveSettings writes,
CenterBreathDisplay.tsx lines 172 to 183 (SettingsPage document):
the object with sessionDurationSeconds, breathing and animationSpeed,
serialized and stored, as readSettings parses it back. -/
def savePayload (c : Settings) : RawSettings :=
  { sessionDurationSeconds := jsonNumField c.sessionDurationSeconds
    breathing := .obj (jsonNumField c.breathing.inhale)
      (jsonNumField c.breathing.hold) (jsonNumField c.breathing.exhale)
      (jsonNumField c.breathing.rest)
    animationSpeed := jsonNumField c.animationSpeed }

/-- Test for a finite number inside a closed interval. -/
def inRangeB (lo hi : ℚ) : JSNum → Bool
  | .fin q => decide (lo ≤ q) && decide (q ≤ hi)
  | _ => false

/-- Test for a finite non-negative number. -/
def finNonneg : JSNum → Bool
  | .fin q => decide (0 ≤ q)
  | _ => false

/-- A valid, already-normalized session configuration: breathing
durations inside breathingLimits, a finite non-negative session length
and a finite animation speed inside the documented slider range 0.5 to
2. -/
def validConfig (c : Settings) : Bool :=
  finNonneg c.sessionDurationSeconds &&
  inRangeB 1 10 c.breathing.inhale &&
  inRangeB 1 10 c.breathing.hold &&
  inRangeB 1 10 c.breathing.exhale &&
  inRangeB 0 5 c.breathing.rest &&
  inRangeB (1 / 2) 2 c.animationSpeed

/-- C8: saving a valid SessionConfig (serialize and store) and
immediately reloading it (read, parse, normalize) yields a settings
object equal to the one saved, and the stored record stays in
place. -/
theorem save_load_roundtrip (c : Settings) (h : validConfig c = true) :
    readStoredSettings (.obj (savePayload c)) = (false, c) := by
  cases c with
  | mk sess b speed =>
    cases b with
    | mk bi bh be br =>
      simp only [validConfig, Bool.and_eq_true] at h
      obtain ⟨⟨⟨⟨⟨hse, hi⟩, hh⟩, hex⟩, hrr⟩, ha⟩ := h
      cases sess with
      | fin qs =>
        cases bi with
        | fin qi =>
          cases bh with
          | fin qh =>
            cases be with
            | fin qe =>
              cases br with
              | fin qr =>
                cases speed with
                | fin qa =>
                  simp only [inRangeB, Bool.and_eq_true, decide_eq_true_eq] at hi hh hex hrr
                  show (false, readSettingsResult (savePayload _)) = _
                  show (false,
                    applySettingsNorm (readNormalize (savePayload _))) = _
                  have hn : readNormalize (savePayload
                      ⟨.fin qs, ⟨.fin qi, .fin qh, .fin qe, .fin qr⟩, .fin qa⟩)
                      = ⟨.fin qs, ⟨.fin qi, .fin qh, .fin qe, .fin qr⟩, .fin qa⟩ :=
                    rfl
                  rw [hn]
                  simp only [applySettingsNorm, Prod.mk.injEq,
                    Settings.mk.injEq, BreathingNums.mk.injEq, true_and,
                    and_true]
                  exact ⟨clamp_of_mem .inhale qi hi.1 hi.2,
                     clamp_of_mem .hold qh hh.1 hh.2,
                     clamp_of_mem .exhale qe hex.1 hex.2,
                     clamp_of_mem .rest qr hrr.1 hrr.2⟩
                | posInf => simp [inRangeB] at ha
                | negInf => simp [inRangeB] at ha
              | posInf => simp [inRangeB] at hrr
              | negInf => simp [inRangeB] at hrr
            | posInf => simp [inRangeB] at hex
            | negInf => simp [inRangeB] at hex
          | posInf => simp [inRangeB] at hh
          | negInf => simp [inRangeB] at hh
        | posInf => simp [inRangeB] at hi
        | negInf => simp [inRangeB] at hi
      | posInf => simp [finNonneg] at hse
      | negInf => simp [finNonneg] at hse

/-- Witness for C8 at the default settings. -/
theorem save_load_roundtrip_witness :
    readStoredSettings (.obj (savePayload DEFAULT_SETTINGS))
      = (false, DEFAULT_SETTINGS) :=
  save_load_roundtrip DEFAULT_SETTINGS
    (by norm_num [validConfig, finNonneg, inRangeB, DEFAULT_SETTINGS])

/-! ### Phase scale lookup (C9) -/

/-- The smallScale constant of App.tsx line 55, the value 0.9. -/
def smallScale : ℚ := 9 / 10

/-- The largeScale constant of App.tsx line 56, the value 1.08. -/
def largeScale : ℚ := 27 / 25

/-- The two-valued phaseScaleTargets lookup, App.tsx lines 57 to 62:
inhale and hold map to the expanded largeScale, exhale and rest to the
contracted smallScale. -/
def phaseScaleTargets : BreathPhaseKey → ℚ
  | .inhale => largeScale
  | .hold => largeScale
  | .exhale => smallScale
  | .rest => smallScale

/-- The phaseScale the first App document actually hands to the
presentation layer, App.tsx line 232: the constant smallScale,
ignoring the phaseScaleTargets table defined a few lines above. -/
def phaseScaleShown : BreathPhaseKey → ℚ := fun _ => smallScale

/-- The phaseScale of the second App document, App.tsx line 583: the
phaseScaleTargets lookup at the current phase. -/
def phaseScaleShownVariant2 (key : BreathPhaseKey) : ℚ := phaseScaleTargets key

/-- C9: the phaseScaleTargets lookup is the claimed two-valued map, and
the second App document exposes it for every phase; but the first App
document, the one the claim cites, exposes the constant smallScale for
every phase, so on the Inhale phase it shows the contracted 0.9 instead
of the expanded 1.08 demanded by the lookup it defines and never
uses. -/
theorem phase_scale_divergence :
    phaseScaleTargets .inhale = largeScale ∧
    phaseScaleTargets .hold = largeScale ∧
    phaseScaleTargets .exhale = smallScale ∧
    phaseScaleTargets .rest = smallScale ∧
    phaseScaleShownVariant2 .inhale = phaseScaleTargets .inhale ∧
    phaseScaleShownVariant2 .hold = phaseScaleTargets .hold ∧
    phaseScaleShownVariant2 .exhale = phaseScaleTargets .exhale ∧
    phaseScaleShownVariant2 .rest = phaseScaleTargets .rest ∧
    phaseScaleShown .inhale = smallScale ∧
    phaseScaleShown .inhale ≠ phaseScaleTargets .inhale := by
  norm_num [phaseScaleTargets, phaseScaleShown, phaseScaleShownVariant2,
    smallScale, largeScale]

end CoolWaves
